import Mathlib

/-!
Verification of the agba Game Boy emulator core against its specification.

The Rust source is shallowly embedded: 8-bit and 16-bit machine integers
become `Nat` with explicit `% 256` / `% 65536` where the source wraps,
fallible operations (Rust panics, asserts and out-of-bounds `Vec` indexing)
become `Option`, and stateful methods become functions returning the updated
state. Definitions are translated from the source files under src/; the few
helpers whose source files are absent (utils.rs, bus.rs, mbc2.rs, mbc3.rs,
mbc5.rs) are modelled from the specification and marked as such.
-/

/- ===================== utils.rs (absent from src/) ===================== -/

/-- Modelled from the spec: utils.rs is absent from src/. Byte merge:
`merge_bytes(high, low)` forms the 16-bit value with the given high and low
bytes (spec section 2, "byte merge/split"; the test suite shows
`get_high_byte(0xABCD) = 0xAB`, `get_low_byte(0xABCD) = 0xCD`). -/
def merge_bytes (high low : Nat) : Nat :=
  high * 256 + low

/-- Modelled from the spec: utils.rs is absent from src/. High byte of a
16-bit value. -/
def get_high_byte (v : Nat) : Nat :=
  v / 256 % 256

/-- Modelled from the spec: utils.rs is absent from src/. Low byte of a
16-bit value. -/
def get_low_byte (v : Nat) : Nat :=
  v % 256

/-- Modelled from the spec: utils.rs is absent from src/. Half-carry of an
8-bit addition, spec section 4.1: `H = ((A&0x0F)+(n&0x0F)) > 0x0F`. -/
def check_h_carry_u8 (a b : Nat) : Bool :=
  decide (0x0F < (a &&& 0x0F) + (b &&& 0x0F))

/-- Modelled from the spec: utils.rs is absent from src/. Half-borrow of an
8-bit subtraction, spec section 4.1: `H = (A&0x0F) < (n&0x0F)`. -/
def check_h_borrow_u8 (a b : Nat) : Bool :=
  decide ((a &&& 0x0F) < (b &&& 0x0F))

/-- Modelled from the spec: utils.rs is absent from src/. `ModifyBits.get_bit`,
testing a single bit of a byte. -/
def get_bit (v : Nat) (digit : Nat) : Bool :=
  v.testBit digit

/- ===================== src/core/src/cpu/timer.rs ===================== -/

def DIV_REG : Nat := 0xFF04
def CNT_REG : Nat := 0xFF05
def MOD_REG : Nat := 0xFF06
def CON_REG : Nat := 0xFF07

def TIMER_SPEED_IN_CYCLES : Nat := 16

def COUNT_SPEED_IN_CYCLES : Fin 4 → Nat
  | 0 => 64
  | 1 => 1
  | 2 => 4
  | 3 => 16

structure Timer where
  running : Bool
  div_cycles : Nat
  cnt_cycles : Nat
  cnt_index : Fin 4
  div_reg : Nat
  cnt_reg : Nat
  mod_reg : Nat
deriving DecidableEq

def Timer.new : Timer :=
  { running := false
    div_cycles := 0
    cnt_cycles := 0
    cnt_index := 0
    div_reg := 0
    cnt_reg := 0
    mod_reg := 0 }

/-- Timer::tick. `u8` increments wrap (`% 256`); `checked_add` on `cnt_reg`
overflows exactly when `cnt_reg = 255`, in which case the counter is reloaded
from `mod_reg` and the interrupt is reported by the returned Bool. -/
def Timer.tick (t : Timer) : Bool × Timer :=
  if t.running then
    let dc0 := (t.div_cycles + 1) % 256
    let cc0 := (t.cnt_cycles + 1) % 256
    let dr := if dc0 = TIMER_SPEED_IN_CYCLES then (t.div_reg + 1) % 256 else t.div_reg
    let dc := if dc0 = TIMER_SPEED_IN_CYCLES then 0 else dc0
    if cc0 = COUNT_SPEED_IN_CYCLES t.cnt_index then
      if t.cnt_reg = 255 then
        (true, { t with div_cycles := dc, cnt_cycles := 0, div_reg := dr, cnt_reg := t.mod_reg })
      else
        (false, { t with div_cycles := dc, cnt_cycles := cc0, div_reg := dr, cnt_reg := t.cnt_reg + 1 })
    else
      (false, { t with div_cycles := dc, cnt_cycles := cc0, div_reg := dr })
  else
    (false, t)

/-- Timer::read_timer. The `panic!` arm for a non-timer register is `none`. -/
def Timer.read_timer (t : Timer) (addr : Nat) : Option Nat :=
  if addr = DIV_REG then some t.div_reg
  else if addr = CNT_REG then some t.cnt_reg
  else if addr = MOD_REG then some t.mod_reg
  else if addr = CON_REG then
    some ((if t.running then 0b100 else 0) ||| t.cnt_index.val)
  else none

/-- Timer::write_timer. The `panic!` arm for a non-timer register is `none`.
`val & 0x3` is below 4, so it is a valid index into COUNT_SPEED_IN_CYCLES. -/
def Timer.write_timer (t : Timer) (addr val : Nat) : Option Timer :=
  if addr = DIV_REG then some { t with div_reg := 0 }
  else if addr = CNT_REG then some { t with cnt_reg := 0 }
  else if addr = MOD_REG then some { t with mod_reg := val }
  else if addr = CON_REG then
    some { t with running := get_bit val 2
                  cnt_index := ⟨val &&& 0x3, Nat.lt_succ_of_le Nat.and_le_right⟩ }
  else none

/- ===================== src/core/src/cartridge/mod.rs ===================== -/

def ROM_BANK_SIZE : Nat := 0x4000
def RAM_BANK_SIZE : Nat := 0x2000
def MAX_RAM_SIZE : Nat := 32 * 1024
def MBC5_MAX_RAM_SIZE : Nat := 128 * 1024

def ROM_STOP : Nat := 0x7FFF
def EXT_RAM_START : Nat := 0xA000

def CGB_FLAG_ADDR : Nat := 0x0143
def MBC_TYPE_ADDR : Nat := 0x0147

inductive MBC
  | NONE
  | MBC1
  | MBC2
  | MBC3
  | HuC1
  | MBC5
deriving DecidableEq

structure Cart where
  mbc : MBC
  rom_bank : Nat
  ram_bank : Nat
  rom : List Nat
  ram : List Nat
  ext_ram_enable : Bool
  rom_mode : Bool
  cgb : Bool

def Cart.new : Cart :=
  { mbc := MBC.NONE
    rom_bank := 1
    ram_bank := 0
    rom := []
    ram := []
    ext_ram_enable := false
    rom_mode := true
    cgb := false }

/-- mbc1_read_byte (src/core/src/cartridge/mbc1.rs). The `u16` subtraction
`addr - EXT_RAM_START` aborts on underflow and `Vec` indexing aborts out of
bounds; both abort outcomes are `none`. -/
def mbc1_read_byte (cart : Cart) (addr : Nat) : Option Nat :=
  if addr < EXT_RAM_START then none
  else cart.ram[cart.ram_bank * RAM_BANK_SIZE + (addr - EXT_RAM_START)]?

/-- Modelled from the spec: mbc2.rs is absent from src/. External RAM is 512
half-bytes at $A000-$A1FF mirrored through $BFFF; reads return the stored low
4 bits with high nibble $F. -/
def mbc2_read_byte (cart : Cart) (addr : Nat) : Option Nat :=
  if addr < EXT_RAM_START then none
  else (cart.ram[(addr - EXT_RAM_START) % 512]?).map fun v => 0xF0 ||| (v &&& 0x0F)

/-- Modelled from the spec: mbc3.rs is absent from src/. Reads from the
external RAM region return the byte of the selected RAM bank. -/
def mbc3_read_byte (cart : Cart) (addr : Nat) : Option Nat :=
  if addr < EXT_RAM_START then none
  else cart.ram[cart.ram_bank * RAM_BANK_SIZE + (addr - EXT_RAM_START)]?

/-- Modelled from the spec: mbc5.rs is absent from src/. Reads from the
external RAM region return the byte of the selected RAM bank. -/
def mbc5_read_byte (cart : Cart) (addr : Nat) : Option Nat :=
  if addr < EXT_RAM_START then none
  else cart.ram[cart.ram_bank * RAM_BANK_SIZE + (addr - EXT_RAM_START)]?

/-- Cart::read_cart. Note the source guards the switchable-bank branch with
`address < ROM_STOP` (strict, ROM_STOP = $7FFF), so address $7FFF itself falls
through to the MBC (external RAM) dispatch. `Vec` indexing panics are `none`. -/
def Cart.read_cart (cart : Cart) (address : Nat) : Option Nat :=
  if address < ROM_BANK_SIZE then
    cart.rom[address]?
  else if address < ROM_STOP then
    cart.rom[cart.rom_bank * ROM_BANK_SIZE + (address - ROM_BANK_SIZE)]?
  else
    match cart.mbc with
    | MBC.MBC1 => mbc1_read_byte cart address
    | MBC.MBC2 => mbc2_read_byte cart address
    | MBC.MBC3 => mbc3_read_byte cart address
    | MBC.MBC5 => mbc5_read_byte cart address
    | _ => some 0

/-- Cart::set_mbc. The source match has arms for $00, $01-$03, $05-$06 and
$0F-$13 only; everything else (including $19-$1E) falls to the `_` arm and
yields MBC::NONE. Reading past the end of the ROM aborts, hence `Option`. -/
def Cart.set_mbc (cart : Cart) : Option Cart :=
  (cart.rom[MBC_TYPE_ADDR]?).map fun val =>
    let mbc :=
      if val = 0x00 then MBC.NONE
      else if 0x01 ≤ val ∧ val ≤ 0x03 then MBC.MBC1
      else if 0x05 ≤ val ∧ val ≤ 0x06 then MBC.MBC2
      else if 0x0F ≤ val ∧ val ≤ 0x13 then MBC.MBC3
      else MBC.NONE
    { cart with mbc := mbc }

/-- Cart::set_cgb. -/
def Cart.set_cgb (cart : Cart) : Option Cart :=
  (cart.rom[CGB_FLAG_ADDR]?).map fun val =>
    { cart with cgb := (val == 0x80) || (val == 0xC0) }

/-- Cart::init_ext_ram: the RAM vector is sized to the controller maximum. -/
def Cart.init_ext_ram (cart : Cart) : Cart :=
  if cart.mbc = MBC.MBC5 then { cart with ram := List.replicate MBC5_MAX_RAM_SIZE 0 }
  else { cart with ram := List.replicate MAX_RAM_SIZE 0 }

/-- Cart::load_cart: appends the ROM bytes, then parses the MBC type and the
CGB flag and allocates external RAM. -/
def Cart.load_cart (cart : Cart) (rom : List Nat) : Option Cart :=
  let c2 := { cart with rom := cart.rom ++ rom }
  c2.set_mbc.bind fun c3 => c3.set_cgb.map fun c4 => c4.init_ext_ram

/- ===================== src/core/src/ppu/clock.rs ===================== -/

def HBLANK_LEN : Nat := 204
def VBLANK_LEN : Nat := 456
def OAM_READ_LEN : Nat := 80
def VRAM_READ_LEN : Nat := 172

def VBLANK_LINE_START : Nat := 143
def VBLANK_LINE_END : Nat := VBLANK_LINE_START + 10

inductive ClockResults
  | NoAction
  | RenderScanline
  | RenderFrame
deriving DecidableEq

inductive ModeTypes
  | HBLANK
  | VBLANK
  | OAMReadMode
  | VRAMReadMode
deriving DecidableEq

structure Clock where
  cycles : Nat
  line : Nat
  mode : ModeTypes
deriving DecidableEq

def Clock.new : Clock :=
  { cycles := 0
    line := 0
    mode := ModeTypes.HBLANK }

/-- Clock::clock_step. The `u8` scanline increment wraps (`% 256`); cycle
comparisons use `>=` as in the source. RenderFrame is produced exactly when,
in HBLANK, the incremented line equals VBLANK_LINE_START (= 143). -/
def Clock.clock_step (clk : Clock) (cycles : Nat) : ClockResults × Clock :=
  let cyc := clk.cycles + cycles
  match clk.mode with
  | ModeTypes.HBLANK =>
    if HBLANK_LEN ≤ cyc then
      let line := (clk.line + 1) % 256
      if line = VBLANK_LINE_START then
        (ClockResults.RenderFrame, { clk with cycles := 0, line := line, mode := ModeTypes.VBLANK })
      else
        (ClockResults.NoAction, { clk with cycles := 0, line := line, mode := ModeTypes.OAMReadMode })
    else
      (ClockResults.NoAction, { clk with cycles := cyc })
  | ModeTypes.VBLANK =>
    if VBLANK_LEN ≤ cyc then
      let line := (clk.line + 1) % 256
      if VBLANK_LINE_END < line then
        (ClockResults.NoAction, { clk with cycles := 0, line := 0, mode := ModeTypes.OAMReadMode })
      else
        (ClockResults.NoAction, { clk with cycles := 0, line := line })
    else
      (ClockResults.NoAction, { clk with cycles := cyc })
  | ModeTypes.OAMReadMode =>
    if OAM_READ_LEN ≤ cyc then
      (ClockResults.NoAction, { clk with cycles := 0, mode := ModeTypes.VRAMReadMode })
    else
      (ClockResults.NoAction, { clk with cycles := cyc })
  | ModeTypes.VRAMReadMode =>
    if VRAM_READ_LEN ≤ cyc then
      (ClockResults.RenderScanline, { clk with cycles := 0, mode := ModeTypes.HBLANK })
    else
      (ClockResults.NoAction, { clk with cycles := cyc })

def Clock.get_scanline (clk : Clock) : Nat :=
  clk.line

def Clock.get_mode (clk : Clock) : ModeTypes :=
  clk.mode

/- ===================== src/core/src/cpu/mod.rs ===================== -/

inductive Flags
  | Z
  | N
  | H
  | C

inductive Regs
  | A
  | B
  | C
  | D
  | E
  | F
  | H
  | L

inductive Regs16
  | AF
  | BC
  | DE
  | HL

/-- The Cpu struct. The `bus` field is modelled from the spec (bus.rs is
absent from src/) as a total byte map over addresses, named `ram`; reads
return a byte for every address (spec section 6 memory map). The `clock`,
`interrupted` and `halted` fields follow the source. -/
structure Cpu where
  pc : Nat
  sp : Nat
  a : Nat
  b : Nat
  c : Nat
  d : Nat
  e : Nat
  f : Nat
  h : Nat
  l : Nat
  clock : Clock
  interrupted : Bool
  halted : Bool
  ram : Nat → Nat

/-- Cpu::get_reg. -/
def Cpu.get_reg (cpu : Cpu) (r : Regs) : Nat :=
  match r with
  | Regs.A => cpu.a
  | Regs.B => cpu.b
  | Regs.C => cpu.c
  | Regs.D => cpu.d
  | Regs.E => cpu.e
  | Regs.F => cpu.f
  | Regs.H => cpu.h
  | Regs.L => cpu.l

/-- Cpu::set_reg. -/
def Cpu.set_reg (cpu : Cpu) (r : Regs) (val : Nat) : Cpu :=
  match r with
  | Regs.A => { cpu with a := val }
  | Regs.B => { cpu with b := val }
  | Regs.C => { cpu with c := val }
  | Regs.D => { cpu with d := val }
  | Regs.E => { cpu with e := val }
  | Regs.F => { cpu with f := val }
  | Regs.H => { cpu with h := val }
  | Regs.L => { cpu with l := val }

/-- Cpu::get_flag: flags Z,N,H,C are bits 7,6,5,4 of F. -/
def Cpu.get_flag (cpu : Cpu) (fl : Flags) : Bool :=
  match fl with
  | Flags.Z => (cpu.f &&& 0b10000000) != 0
  | Flags.N => (cpu.f &&& 0b01000000) != 0
  | Flags.H => (cpu.f &&& 0b00100000) != 0
  | Flags.C => (cpu.f &&& 0b00010000) != 0

/-- Cpu::set_flag. -/
def Cpu.set_flag (cpu : Cpu) (fl : Flags) : Cpu :=
  match fl with
  | Flags.Z => { cpu with f := cpu.f ||| 0b10000000 }
  | Flags.N => { cpu with f := cpu.f ||| 0b01000000 }
  | Flags.H => { cpu with f := cpu.f ||| 0b00100000 }
  | Flags.C => { cpu with f := cpu.f ||| 0b00010000 }

/-- Cpu::clear_flag. -/
def Cpu.clear_flag (cpu : Cpu) (fl : Flags) : Cpu :=
  match fl with
  | Flags.Z => { cpu with f := cpu.f &&& 0b01111111 }
  | Flags.N => { cpu with f := cpu.f &&& 0b10111111 }
  | Flags.H => { cpu with f := cpu.f &&& 0b11011111 }
  | Flags.C => { cpu with f := cpu.f &&& 0b11101111 }

/-- Cpu::write_flag. -/
def Cpu.write_flag (cpu : Cpu) (fl : Flags) (val : Bool) : Cpu :=
  if val then cpu.set_flag fl else cpu.clear_flag fl

/-- Cpu::get_reg_16: merges the two 8-bit halves of the pair. -/
def Cpu.get_reg_16 (cpu : Cpu) (r : Regs16) : Nat :=
  match r with
  | Regs16.AF => merge_bytes cpu.a cpu.f
  | Regs16.BC => merge_bytes cpu.b cpu.c
  | Regs16.DE => merge_bytes cpu.d cpu.e
  | Regs16.HL => merge_bytes cpu.h cpu.l

/-- Cpu::set_reg_16: splits the value into bytes and stores them. The source
stores the low byte into F for AF without masking its low nibble. -/
def Cpu.set_reg_16 (cpu : Cpu) (r : Regs16) (val : Nat) : Cpu :=
  let high := get_high_byte val
  let low := get_low_byte val
  match r with
  | Regs16.AF => (cpu.set_reg Regs.A high).set_reg Regs.F low
  | Regs16.BC => (cpu.set_reg Regs.B high).set_reg Regs.C low
  | Regs16.DE => (cpu.set_reg Regs.D high).set_reg Regs.E low
  | Regs16.HL => (cpu.set_reg Regs.H high).set_reg Regs.L low

def Cpu.get_sp (cpu : Cpu) : Nat :=
  cpu.sp

def Cpu.set_sp (cpu : Cpu) (val : Nat) : Cpu :=
  { cpu with sp := val }

/-- Cpu::read_ram delegates to the bus, modelled as the `ram` byte map. -/
def Cpu.read_ram (cpu : Cpu) (addr : Nat) : Nat :=
  cpu.ram addr

/-- Cpu::add_a_d8: two-stage add (operand, then carry-in for ADC), with
`overflowing_add` carries and per-stage half-carry checks. -/
def Cpu.add_a_d8 (cpu : Cpu) (val : Nat) (adc : Bool) : Cpu :=
  let carry := if adc && cpu.get_flag Flags.C then 1 else 0
  let a := cpu.get_reg Regs.A
  let result1 := (a + val) % 256
  let overflow1 : Bool := decide (255 < a + val)
  let h_check1 := check_h_carry_u8 a val
  let result2 := (result1 + carry) % 256
  let overflow2 : Bool := decide (255 < result1 + carry)
  let h_check2 := check_h_carry_u8 result1 carry
  let set_h := h_check1 || h_check2
  let set_c := overflow1 || overflow2
  let cpu := cpu.clear_flag Flags.N
  let cpu := cpu.write_flag Flags.C set_c
  let cpu := cpu.write_flag Flags.H set_h
  let cpu := cpu.write_flag Flags.Z (result2 == 0)
  cpu.set_reg Regs.A result2

/-- Cpu::cp_a_d8: writes Z, H and C from the comparison. The source never
touches the N flag and never writes the A register. -/
def Cpu.cp_a_d8 (cpu : Cpu) (val : Nat) : Cpu :=
  let a := cpu.get_reg Regs.A
  let set_h := check_h_borrow_u8 a val
  let cpu := cpu.write_flag Flags.Z (a == val)
  let cpu := cpu.write_flag Flags.H set_h
  cpu.write_flag Flags.C (decide (a < val))

/-- Cpu::daa. `wrapping_add`/`wrapping_sub` on `u8` become `% 256` arithmetic
(`wrapping_sub k` is `+ (256 - k)` then `% 256`). The low-nibble correction in
the source is guarded by `(a & 0x0F) < 0x09`. -/
def Cpu.daa (cpu : Cpu) : Cpu :=
  let a := cpu.get_reg Regs.A
  let (a, cpu) :=
    if !(cpu.get_flag Flags.N) then
      let (a, cpu) :=
        if cpu.get_flag Flags.C || decide (0x99 < a) then
          ((a + 0x60) % 256, cpu.set_flag Flags.C)
        else
          (a, cpu)
      let a :=
        if cpu.get_flag Flags.H || decide (a &&& 0x0F < 0x09) then
          (a + 0x06) % 256
        else
          a
      (a, cpu)
    else
      let a := if cpu.get_flag Flags.C then (a + (256 - 0x60)) % 256 else a
      let a := if cpu.get_flag Flags.H then (a + (256 - 0x06)) % 256 else a
      (a, cpu)
  let cpu := cpu.write_flag Flags.Z (a == 0)
  let cpu := cpu.clear_flag Flags.H
  cpu.set_reg Regs.A a

/-- Cpu::pop. The source asserts `sp != 0xFFFE` ("Trying to pop when stack is
empty"), aborting the process when the stack is empty; the abort is `none`.
`u16` address arithmetic wraps (`% 65536`). -/
def Cpu.pop (cpu : Cpu) : Option (Nat × Cpu) :=
  let sp := cpu.get_sp
  if sp = 0xFFFE then none
  else
    let low := cpu.read_ram sp
    let high := cpu.read_ram ((sp + 1) % 65536)
    let byte := merge_bytes high low
    some (byte, cpu.set_sp ((sp + 2) % 65536))

/-- A concrete CPU state carrying the reset register values written by
Cpu::new (the modelled bus map is all zeroes). -/
def cpu_base : Cpu :=
  { pc := 0x100
    sp := 0xFFFE
    a := 0x01
    b := 0x00
    c := 0x13
    d := 0x00
    e := 0xD8
    f := 0xB0
    h := 0x01
    l := 0x4D
    clock := Clock.new
    interrupted := false
    halted := false
    ram := fun _ => 0 }

/- ===================== Claims ===================== -/

/-- Helper: parsing the MBC type of an all-7 ROM ($0147 holds 7, an
unsupported type byte) yields MBC::NONE. -/
theorem set_mbc_r7 (c : Cart) (hrom : c.rom = List.replicate 0x8000 7) :
    c.set_mbc = some { c with mbc := MBC.NONE } := by
  simp only [Cart.set_mbc, hrom, List.getElem?_replicate, MBC_TYPE_ADDR]
  norm_num

/-- Helper: parsing the CGB flag of an all-7 ROM yields false. -/
theorem set_cgb_r7 (c : Cart) (hrom : c.rom = List.replicate 0x8000 7) :
    c.set_cgb = some { c with cgb := false } := by
  simp only [Cart.set_cgb, hrom, List.getElem?_replicate, CGB_FLAG_ADDR]
  norm_num

/-- Helper: RAM allocation for a non-MBC5 cart is the 32 KiB maximum. -/
theorem init_ext_ram_none (c : Cart) (hmbc : c.mbc = MBC.NONE) :
    c.init_ext_ram = { c with ram := List.replicate MAX_RAM_SIZE 0 } := by
  rw [Cart.init_ext_ram, hmbc]
  rw [if_neg (by decide : ¬ (MBC.NONE = MBC.MBC5))]

/-- Helper: the cart state after loading the $8000-byte all-7 ROM. -/
theorem load_cart_r7 :
    Cart.load_cart Cart.new (List.replicate 0x8000 7)
      = some { mbc := MBC.NONE, rom_bank := 1, ram_bank := 0, rom := List.replicate 0x8000 7,
               ram := List.replicate MAX_RAM_SIZE 0, ext_ram_enable := false, rom_mode := true,
               cgb := false } := by
  have e1 : ({ Cart.new with rom := Cart.new.rom ++ List.replicate 0x8000 7 } : Cart)
      = { mbc := MBC.NONE, rom_bank := 1, ram_bank := 0, rom := List.replicate 0x8000 7,
          ram := [], ext_ram_enable := false, rom_mode := true, cgb := false } := rfl
  simp only [Cart.load_cart]
  rw [e1]
  rw [set_mbc_r7 _ rfl]
  rw [Option.some_bind']
  rw [set_cgb_r7 _ rfl]
  rw [Option.map_some']
  rw [init_ext_ram_none _ rfl]

set_option maxRecDepth 4000 in
/-- C1: the claim says every address $4000-$7FFF reads
`rom[rom_bank * 0x4000 + (addr - 0x4000)]`, but the source guards the
switchable-bank branch with the strict `address < ROM_STOP` ($7FFF), so
address $7FFF itself is misrouted to the MBC dispatch. On a loaded all-7 ROM
of $8000 bytes with the default bank 1, reading $7FFE returns the ROM byte 7
as claimed, while reading $7FFF returns 0 although the ROM byte at
`1 * 0x4000 + ($7FFF - $4000)` is 7. -/
theorem c1_read_cart_misses_top_rom_byte :
    (Cart.load_cart Cart.new (List.replicate 0x8000 7)).map
        (fun cart => (cart.rom_bank, cart.read_cart 0x7FFE, cart.read_cart 0x7FFF,
          cart.rom[1 * 0x4000 + (0x7FFE - 0x4000)]?, cart.rom[1 * 0x4000 + (0x7FFF - 0x4000)]?))
      = some (1, some 7, some 0, some 7, some 7) := by
  rw [load_cart_r7, Option.map_some']
  simp only [Cart.read_cart, List.getElem?_replicate, ROM_BANK_SIZE, ROM_STOP]
  norm_num

/-- C2 counterexample: writing $12FF to AF and reading AF back yields $12FF,
not $12F0 — the source stores the low byte into F without masking its low
nibble. -/
theorem c2_af_low_nibble_not_masked :
    Cpu.get_reg_16 (Cpu.set_reg_16 cpu_base Regs16.AF 0x12FF) Regs16.AF = 0x12FF ∧
      (0x12FF : Nat) ≠ 0x12F0 := by
  decide

/-- C2 (amended): for every register pair, AF included, writing a 16-bit
value and reading the pair back yields the value unchanged — the F low nibble
is not forced to zero. -/
theorem c2_reg16_roundtrip (cpu : Cpu) (r : Regs16) (v : Nat) (h : v < 0x10000) :
    Cpu.get_reg_16 (Cpu.set_reg_16 cpu r v) r = v := by
  cases r <;>
    simp [Cpu.set_reg_16, Cpu.get_reg_16, Cpu.set_reg, merge_bytes, get_high_byte,
      get_low_byte] <;>
    omega

/-- C2 witness: the round trip at a concrete input. -/
theorem c2_reg16_roundtrip_witness :
    (0xABCD : Nat) < 0x10000 ∧
      Cpu.get_reg_16 (Cpu.set_reg_16 cpu_base Regs16.AF 0xABCD) Regs16.AF = 0xABCD :=
  ⟨by decide, c2_reg16_roundtrip cpu_base Regs16.AF 0xABCD (by decide)⟩

/-- C3 counterexample: a running timer at TIMA=$FF on its counting edge
(TAC index 1, so the counter advances every tick) reloads TIMA from TMA and
requests the interrupt within the very same tick: immediately afterwards TIMA
reads $AB (= TMA), not the $00 the claim requires for the next 4 T-cycles. -/
theorem c3_tima_overflow_reloads_immediately :
    (Timer.tick ⟨true, 0, 0, 1, 0, 255, 0xAB⟩).1 = true ∧
      Timer.read_timer (Timer.tick ⟨true, 0, 0, 1, 0, 255, 0xAB⟩).2 CNT_REG = some 0xAB ∧
      Timer.read_timer (Timer.tick ⟨true, 0, 0, 1, 0, 255, 0xAB⟩).2 CNT_REG ≠ some 0 := by
  decide

/-- C3 (amended): when the timer is enabled and TIMA increments past $FF, the
tick that overflows immediately sets TIMA to TMA and requests the timer
interrupt; there is no cooldown during which TIMA reads $00. -/
theorem c3_tick_overflow_immediate (t : Timer) (h1 : t.running = true) (h2 : t.cnt_reg = 255)
    (h3 : (t.cnt_cycles + 1) % 256 = COUNT_SPEED_IN_CYCLES t.cnt_index) :
    (t.tick).1 = true ∧ Timer.read_timer (t.tick).2 CNT_REG = some t.mod_reg := by
  simp [Timer.tick, Timer.read_timer, h1, h2, h3, CNT_REG, DIV_REG]

/-- C3 witness: the amended theorem at the concrete overflowing timer. -/
theorem c3_tick_overflow_immediate_witness :
    (⟨true, 0, 0, 1, 0, 255, 0xAB⟩ : Timer).running = true ∧
      (⟨true, 0, 0, 1, 0, 255, 0xAB⟩ : Timer).cnt_reg = 255 ∧
      ((⟨true, 0, 0, 1, 0, 255, 0xAB⟩ : Timer).cnt_cycles + 1) % 256
          = COUNT_SPEED_IN_CYCLES (⟨true, 0, 0, 1, 0, 255, 0xAB⟩ : Timer).cnt_index ∧
      ((Timer.tick ⟨true, 0, 0, 1, 0, 255, 0xAB⟩).1 = true ∧
        Timer.read_timer (Timer.tick ⟨true, 0, 0, 1, 0, 255, 0xAB⟩).2 CNT_REG
          = some (⟨true, 0, 0, 1, 0, 255, 0xAB⟩ : Timer).mod_reg) :=
  ⟨rfl, rfl, by decide, c3_tick_overflow_immediate _ rfl rfl (by decide)⟩

/-- C4: the claim says the frame-ready signal is produced at the step where
the scanline counter becomes 144, but VBLANK_LINE_START is 143 in the source:
the HBlank step taking the line from 142 to 143 switches to VBlank and
returns RenderFrame, while the VBlank step taking the line from 143 to 144
returns NoAction. -/
theorem c4_frame_ready_at_line_143 :
    Clock.clock_step ⟨203, 142, ModeTypes.HBLANK⟩ 1
        = (ClockResults.RenderFrame, ⟨0, 143, ModeTypes.VBLANK⟩) ∧
      Clock.clock_step ⟨455, 143, ModeTypes.VBLANK⟩ 1
        = (ClockResults.NoAction, ⟨0, 144, ModeTypes.VBLANK⟩) := by
  decide

/-- C5: from A=$15 with clear flags, ADD A,$27 gives A=$3C with N=0, H=0, C=0
as claimed, but the subsequent DAA leaves A at $3C instead of the claimed $42:
the source's low-nibble correction is guarded by `(a & 0x0F) < 0x09`, which is
false at $3C, so no $06 is added. -/
theorem c5_add_then_daa_eval :
    (let c1 := Cpu.add_a_d8 { cpu_base with a := 0x15, f := 0 } 0x27 false
     c1.get_reg Regs.A = 0x3C ∧ c1.get_flag Flags.N = false ∧ c1.get_flag Flags.H = false ∧
       c1.get_flag Flags.C = false ∧ c1.daa.get_reg Regs.A = 0x3C ∧
       c1.daa.get_flag Flags.Z = false ∧ c1.daa.get_flag Flags.H = false ∧
       c1.daa.get_flag Flags.C = false) := by
  decide

/-- C6: the claim says CP sets N to 1, but cp_a_d8 never writes the N flag:
with A=5 and clear flags, CP A,3 leaves N clear (while Z, H, C and A behave
as claimed). -/
theorem c6_cp_leaves_n_clear_eval :
    (let c2 := Cpu.cp_a_d8 { cpu_base with a := 5, f := 0 } 3
     c2.get_reg Regs.A = 5 ∧ c2.get_flag Flags.Z = false ∧ c2.get_flag Flags.N = false ∧
       c2.get_flag Flags.H = false ∧ c2.get_flag Flags.C = false) := by
  decide

set_option maxRecDepth 8000 in
/-- C7: the claim says header byte $19 at $0147 selects MBC5, but set_mbc has
no MBC5 arm; loading a ROM whose cartridge-type byte is $19 yields MBC::NONE. -/
theorem c7_mbc5_header_byte_gives_none :
    (Cart.load_cart Cart.new (List.replicate 0x0150 0x19)).map Cart.mbc = some MBC.NONE := by
  decide

/-- C8 counterexample: at SP=$FFFE (the empty-stack case singled out by the
claim) pop hits the source's assert and aborts instead of returning a value. -/
theorem c8_pop_empty_stack_aborts :
    cpu_base.sp = 0xFFFE ∧ Cpu.pop cpu_base = none :=
  ⟨rfl, rfl⟩

/-- C8 (amended): pop aborts exactly on the empty stack: for every SP other
than $FFFE it returns a value, with 16-bit wrap-around on the addresses. -/
theorem c8_pop_returns_value_when_sp_not_fffe (cpu : Cpu) (h : cpu.sp ≠ 0xFFFE) :
    (Cpu.pop cpu).isSome = true := by
  simp [Cpu.pop, Cpu.get_sp, h]

/-- C8 witness: pop succeeds at a concrete non-empty SP. -/
theorem c8_pop_witness :
    ({ cpu_base with sp := 0xFFFC } : Cpu).sp ≠ 0xFFFE ∧
      (Cpu.pop { cpu_base with sp := 0xFFFC }).isSome = true :=
  ⟨by decide, c8_pop_returns_value_when_sp_not_fffe _ (by decide)⟩

/-- C9: for every timer state and every written value, a write to DIV ($FF04)
zeroes the visible divider register, so a subsequent DIV read with no
intervening ticks returns 0. -/
theorem c9_div_write_resets (t : Timer) (v : Nat) :
    (t.write_timer DIV_REG v).bind (fun t2 => t2.read_timer DIV_REG) = some 0 := by
  simp [Timer.write_timer, Timer.read_timer]

/-- C10: for every timer state and every written value v, a write of v to
TIMA ($FF05) sets the counter to 0 regardless of v, so a subsequent TIMA read
with no intervening ticks returns 0. -/
theorem c10_tima_write_discards (t : Timer) (v : Nat) :
    (t.write_timer CNT_REG v).bind (fun t2 => t2.read_timer CNT_REG) = some 0 := by
  simp [Timer.write_timer, Timer.read_timer, CNT_REG, DIV_REG]
